import Mathlib

/-!
Shallow embedding of the PulseTick ephemeral group-chat server core:
the Mongoose data model (`models/Group.ts`, `models/GroupMember.ts`,
`models/Message.ts`, `models/MessageReaction.ts`), the zod request
validators (`validators/group.ts`, `validators/message.ts` together with
`middlewares/validation.ts`), the HTTP controllers
(`controllers/groupController.ts`, `controllers/messageController.ts`),
the socket event handlers (`socket/socketHandlers.ts`) and the cleanup
sweep (`services/cleanupService.ts`).

Times are modelled as natural numbers (milliseconds since epoch, the value
of `Date.now()` / `new Date()`); Mongo object ids, invite codes, user ids
and socket ids are strings.  Database collections are lists of rows;
`findOne` is `List.find?`, `save` on a freshly constructed document is an
append, `save` on a fetched-and-mutated document updates the first row the
corresponding `findOne` filter matches, and `findByIdAndDelete` /
`deleteMany` are `eraseP` / `filter`.  Server-generated values (new object
ids, `nanoid` invite codes) enter as explicit parameters.
-/

namespace PulseTick

/-- `MemberRole` enum of `models/GroupMember.ts`. -/
inductive MemberRole where
  | owner
  | admin
  | member
  | banned
deriving DecidableEq, Repr

/-- A `Group` document (`models/Group.ts`). -/
structure Group where
  id : String
  name : String
  description : Option String
  isPublic : Bool
  expiresAt : Nat
  inviteCode : String
  createdBy : String
  createdAt : Nat
deriving DecidableEq, Repr

/-- A `GroupMember` document (`models/GroupMember.ts`). -/
structure GroupMember where
  user : String
  group : String
  role : MemberRole
  joinedAt : Nat
  bannedAt : Option Nat
  bannedBy : Option String
  banReason : Option String
deriving DecidableEq, Repr

/-- `MessageType` enum of `models/Message.ts`. -/
inductive MessageType where
  | text
  | image
  | video
  | file
deriving DecidableEq, Repr

/-- The embedded media descriptor (`mediaDataSchema` of `models/Message.ts`);
`publicId`, `secureUrl` and `resourceType` are required there. -/
structure MediaData where
  publicId : String
  secureUrl : String
  resourceType : String
  bytes : Option Nat
  width : Option Nat
  height : Option Nat
  format : Option String
deriving DecidableEq, Repr

/-- A `Message` document (`models/Message.ts`).  `content` and `media` are
both optional in the schema; `deletedAt` is the soft-delete marker. -/
structure Message where
  id : String
  content : Option String
  sender : String
  group : String
  type : MessageType
  media : Option MediaData
  replyTo : Option String
  editedAt : Option Nat
  deletedAt : Option Nat
  createdAt : Nat
deriving DecidableEq, Repr

/-- A `MessageReaction` document (`models/MessageReaction.ts`):
one row per (message, user, emoji). -/
structure MessageReaction where
  message : String
  user : String
  emoji : String
deriving DecidableEq, Repr

/-- The durable store: the four Mongo collections the core touches. -/
structure DB where
  groups : List Group
  members : List GroupMember
  messages : List Message
  reactions : List MessageReaction
deriving DecidableEq, Repr

/-- An HTTP error produced by `createError(message, status)`
(`middlewares/errorHandler.ts`). -/
structure HttpError where
  msg : String
  status : Nat
deriving DecidableEq, Repr

/-- Update the first element satisfying `p` by `f` (the effect of
fetching a document with `findOne` and calling `.save()` after mutating
it: only that one row changes). -/
def updateFirst (p : α → Bool) (f : α → α) : List α → List α
  | [] => []
  | a :: l => if p a then f a :: l else a :: updateFirst p f l

/-- `findOne({user, group})`: first membership row of the pair. -/
def findMembership (db : DB) (u g : String) : Option GroupMember :=
  db.members.find? fun m => decide (m.user = u ∧ m.group = g)

/-- `findOne({user, group, role: {$ne: BANNED}})`: the non-banned
membership lookup used by message/socket/group read paths. -/
def findMembershipNotBanned (db : DB) (u g : String) : Option GroupMember :=
  db.members.find? fun m =>
    decide (m.user = u ∧ m.group = g ∧ m.role ≠ MemberRole.banned)

/-- `findOne({user, group, role: {$in: [OWNER, ADMIN]}})`: the moderator
lookup used by updateGroup / updateMemberRole / banMember. -/
def findModeratorMembership (db : DB) (u g : String) : Option GroupMember :=
  db.members.find? fun m =>
    decide (m.user = u ∧ m.group = g ∧
      (m.role = MemberRole.owner ∨ m.role = MemberRole.admin))

/-- `Group.findById`. -/
def findGroupById (db : DB) (g : String) : Option Group :=
  db.groups.find? fun gr => decide (gr.id = g)

/-- `Group.findOne({inviteCode})`. -/
def findGroupByInviteCode (db : DB) (code : String) : Option Group :=
  db.groups.find? fun gr => decide (gr.inviteCode = code)

/-- Number of membership rows of group `g` carrying role Owner. -/
def ownerCount (db : DB) (g : String) : Nat :=
  db.members.countP fun m =>
    decide (m.group = g ∧ m.role = MemberRole.owner)

/-! ## zod validators (`validators/group.ts`, `middlewares/validation.ts`)

`validateRequest` replaces `req.body` with `schema.parse(req.body)`; a
`z.object` parse strips unknown keys and rejects on any failed check, in
which case the middleware answers 400 and the controller never runs.
Raw bodies are modelled as structures whose fields are `Option`s
(absent key = `none`); extra keys the schema does not know are carried
explicitly so that stripping is visible. -/

/-- Drop leading whitespace characters from a character list. -/
def dropLeadingWS : List Char → List Char
  | [] => []
  | c :: cs => if c.isWhitespace then dropLeadingWS cs else c :: cs

/-- The JS `String.prototype.trim()` used by zod's `.trim()` transform:
strip leading and trailing whitespace. -/
def strTrim (s : String) : String :=
  ⟨dropLeadingWS ((dropLeadingWS s.data.reverse).reverse)⟩

/-- Raw body of `POST /groups` (`createGroupSchema`).  `expiryDuration`
is a JS number, modelled as an integer. -/
structure CreateGroupBody where
  name : String
  description : Option String
  isPublic : Option Bool
  expiryDuration : Int
deriving DecidableEq, Repr

/-- Parsed output of `createGroupSchema`. -/
structure CreateGroupInput where
  name : String
  description : Option String
  isPublic : Bool
  expiryDuration : Int
deriving DecidableEq, Repr

/-- Minimum expiry accepted by `createGroupSchema`: 1 hour in ms. -/
def minExpiryMs : Int := 3600000

/-- Maximum expiry accepted by `createGroupSchema`: 30 days in ms. -/
def maxExpiryMs : Int := 2592000000

/-- `createGroupSchema.parse`: name `.min(1).max(100).trim()` (the length
checks run on the raw string, then `.trim()` transforms), description
`.max(500).trim().optional()`, `isPublic` defaults to `false`,
`expiryDuration` `.min(3600000).max(2592000000)` (inclusive bounds). -/
def parseCreateGroup (b : CreateGroupBody) : Option CreateGroupInput :=
  if b.name.length < 1 then none
  else if b.name.length > 100 then none
  else if (b.description.getD "").length > 500 then none
  else if b.expiryDuration < minExpiryMs then none
  else if b.expiryDuration > maxExpiryMs then none
  else some
    { name := strTrim b.name
      description := b.description.map strTrim
      isPublic := b.isPublic.getD false
      expiryDuration := b.expiryDuration }

/-- Raw body of `PATCH /groups/:groupId` (`updateGroupSchema`).  The three
fields the schema knows plus arbitrary extra keys a client may send
(`expiresAt`, `inviteCode`, `createdBy`): zod strips the extras. -/
structure UpdateGroupBody where
  name : Option String
  description : Option String
  isPublic : Option Bool
  extraExpiresAt : Option Nat
  extraInviteCode : Option String
  extraCreatedBy : Option String
deriving DecidableEq, Repr

/-- Parsed output of `updateGroupSchema`: only the recognised keys
survive (unknown keys are stripped by `z.object`). -/
structure UpdateGroupInput where
  name : Option String
  description : Option String
  isPublic : Option Bool
deriving DecidableEq, Repr

/-- `updateGroupSchema.parse`: optional name `.min(1).max(100).trim()`,
optional description `.max(500).trim()`, optional boolean `isPublic`;
every unknown key of the raw body is dropped. -/
def parseUpdateGroup (b : UpdateGroupBody) : Option UpdateGroupInput :=
  match b.name with
  | some n =>
      if n.length < 1 then none
      else if n.length > 100 then none
      else if (b.description.getD "").length > 500 then none
      else some { name := some (strTrim n)
                  description := b.description.map strTrim
                  isPublic := b.isPublic }
  | none =>
      if (b.description.getD "").length > 500 then none
      else some { name := none
                  description := b.description.map strTrim
                  isPublic := b.isPublic }

/-- Role values `updateMemberRoleSchema` accepts: `z.enum(['admin',
'member'])`; any other body is rejected by the validation middleware. -/
inductive UpdateRoleValue where
  | admin
  | member
deriving DecidableEq, Repr

/-- The `MemberRole` a validated role string denotes. -/
def UpdateRoleValue.toRole : UpdateRoleValue → MemberRole
  | .admin => MemberRole.admin
  | .member => MemberRole.member

/-! ## Group controller (`controllers/groupController.ts`) -/

/-- `GroupController.createGroup` behind `validateRequest({body:
createGroupSchema})`.  `expiresAt = new Date(Date.now() +
expiryDuration)`; the group is saved, then the creator is saved as the
Owner membership.  `newId` is the Mongo-assigned group id and `code` the
`nanoid(10)` invite-code default. -/
def createGroup (now : Nat) (userId : String) (body : CreateGroupBody)
    (newId code : String) (db : DB) : Except HttpError (DB × Group) :=
  match parseCreateGroup body with
  | none => Except.error { msg := "Validation failed", status := 400 }
  | some input =>
      let group : Group :=
        { id := newId
          name := input.name
          description := input.description
          isPublic := input.isPublic
          expiresAt := now + input.expiryDuration.toNat
          inviteCode := code
          createdBy := userId
          createdAt := now }
      let membership : GroupMember :=
        { user := userId
          group := newId
          role := MemberRole.owner
          joinedAt := now
          bannedAt := none
          bannedBy := none
          banReason := none }
      Except.ok
        ({ db with
            groups := db.groups ++ [group]
            members := db.members ++ [membership] }, group)

/-- `GroupController.joinGroup`: look the group up by invite code, reject
expired groups, reject banned users (403) and duplicate memberships
(409), otherwise append a Member row with `joinedAt = now`. -/
def joinGroup (now : Nat) (userId inviteCode : String) (db : DB) :
    Except HttpError (DB × GroupMember) :=
  match findGroupByInviteCode db inviteCode with
  | none => Except.error { msg := "Invalid invite code or group has expired", status := 404 }
  | some group =>
      if group.expiresAt ≤ now then
        Except.error { msg := "Invalid invite code or group has expired", status := 404 }
      else
        match findMembership db userId group.id with
        | some existing =>
            if existing.role = MemberRole.banned then
              Except.error { msg := "You are banned from this group", status := 403 }
            else
              Except.error { msg := "You are already a member of this group", status := 409 }
        | none =>
            let membership : GroupMember :=
              { user := userId
                group := group.id
                role := MemberRole.member
                joinedAt := now
                bannedAt := none
                bannedBy := none
                banReason := none }
            Except.ok ({ db with members := db.members ++ [membership] }, membership)

/-- `GroupController.leaveGroup`: a missing or banned membership is 404,
the Owner may not leave (400), otherwise the found row is deleted by its
id (`findByIdAndDelete` — the first row matching the lookup). -/
def leaveGroup (userId groupId : String) (db : DB) : Except HttpError DB :=
  match findMembership db userId groupId with
  | none => Except.error { msg := "You are not a member of this group", status := 404 }
  | some membership =>
      if membership.role = MemberRole.banned then
        Except.error { msg := "You are not a member of this group", status := 404 }
      else if membership.role = MemberRole.owner then
        Except.error { msg := "Group owner cannot leave. Transfer ownership or delete the group.", status := 400 }
      else
        Except.ok { db with
          members := db.members.eraseP fun m =>
            decide (m.user = userId ∧ m.group = groupId) }

/-- `GroupController.updateMemberRole` behind `validateRequest({body:
updateMemberRoleSchema})`: the actor must hold Owner or Admin, the target
membership must exist, an Owner-role target may only be modified by the
Owner; then `targetMembership.role = role; save()`. -/
def updateMemberRole (actorId targetUserId groupId : String)
    (role : UpdateRoleValue) (db : DB) : Except HttpError DB :=
  match findModeratorMembership db actorId groupId with
  | none => Except.error { msg := "Not authorized to update member roles", status := 403 }
  | some userMembership =>
      match findMembership db targetUserId groupId with
      | none => Except.error { msg := "Member not found", status := 404 }
      | some targetMembership =>
          if targetMembership.role = MemberRole.owner ∧
              userMembership.role ≠ MemberRole.owner then
            Except.error { msg := "Cannot modify owner role", status := 403 }
          else
            Except.ok { db with
              members := updateFirst
                (fun m => decide (m.user = targetUserId ∧ m.group = groupId))
                (fun m => { m with role := role.toRole })
                db.members }

/-- `GroupController.banMember`: the actor must hold Owner or Admin, the
target membership must exist and must not be the Owner; then the target
row is updated to role Banned with the ban metadata. -/
def banMember (now : Nat) (actorId targetUserId groupId : String)
    (reason : Option String) (db : DB) : Except HttpError DB :=
  match findModeratorMembership db actorId groupId with
  | none => Except.error { msg := "Not authorized to ban members", status := 403 }
  | some _ =>
      match findMembership db targetUserId groupId with
      | none => Except.error { msg := "Member not found", status := 404 }
      | some targetMembership =>
          if targetMembership.role = MemberRole.owner then
            Except.error { msg := "Cannot ban group owner", status := 403 }
          else
            Except.ok { db with
              members := updateFirst
                (fun m => decide (m.user = targetUserId ∧ m.group = groupId))
                (fun m => { m with
                  role := MemberRole.banned
                  bannedAt := some now
                  bannedBy := some actorId
                  banReason := reason })
                db.members }

/-- `GroupController.updateGroup` behind `validateRequest({body:
updateGroupSchema})`: the actor must hold Owner or Admin, then
`findByIdAndUpdate(groupId, {$set: updates})` applies exactly the parsed
(stripped) fields to the group document. -/
def updateGroup (actorId groupId : String) (body : UpdateGroupBody)
    (db : DB) : Except HttpError (DB × Group) :=
  match parseUpdateGroup body with
  | none => Except.error { msg := "Validation failed", status := 400 }
  | some updates =>
      match findModeratorMembership db actorId groupId with
      | none => Except.error { msg := "Not authorized to update this group", status := 403 }
      | some _ =>
          match findGroupById db groupId with
          | none => Except.error { msg := "Group not found", status := 404 }
          | some old =>
              let newGroup : Group :=
                { old with
                  name := updates.name.getD old.name
                  description :=
                    match updates.description with
                    | some d => some d
                    | none => old.description
                  isPublic := updates.isPublic.getD old.isPublic }
              Except.ok
                ({ db with
                    groups := updateFirst (fun gr => decide (gr.id = groupId))
                      (fun gr =>
                        { gr with
                          name := updates.name.getD gr.name
                          description :=
                            match updates.description with
                            | some d => some d
                            | none => gr.description
                          isPublic := updates.isPublic.getD gr.isPublic })
                      db.groups }, newGroup)

/-- The group payload `GroupController.getGroup` answers with.
`inviteCode: membership.role === OWNER ? group.inviteCode : undefined`
is an `Option`: `none` means the key is absent from the JSON. -/
structure GroupDetailResponse where
  id : String
  name : String
  description : Option String
  isPublic : Bool
  inviteCode : Option String
  expiresAt : Nat
  createdBy : String
  createdAt : Nat
  memberCount : Nat
  userRole : MemberRole
  joinedAt : Nat
deriving DecidableEq, Repr

/-- `GroupController.getGroup`: non-banned membership required (404
otherwise), the group must exist and satisfy `expiresAt > now` (404
otherwise); the invite code is included only for the Owner. -/
def getGroup (now : Nat) (userId groupId : String) (db : DB) :
    Except HttpError GroupDetailResponse :=
  match findMembershipNotBanned db userId groupId with
  | none => Except.error { msg := "Group not found or access denied", status := 404 }
  | some membership =>
      match findGroupById db groupId with
      | none => Except.error { msg := "Group not found or has expired", status := 404 }
      | some group =>
          if group.expiresAt ≤ now then
            Except.error { msg := "Group not found or has expired", status := 404 }
          else
            Except.ok
              { id := group.id
                name := group.name
                description := group.description
                isPublic := group.isPublic
                inviteCode :=
                  if membership.role = MemberRole.owner then some group.inviteCode
                  else none
                expiresAt := group.expiresAt
                createdBy := group.createdBy
                createdAt := group.createdAt
                memberCount := db.members.countP fun m =>
                  decide (m.group = groupId ∧ m.role ≠ MemberRole.banned)
                userRole := membership.role
                joinedAt := membership.joinedAt }

/-- One entry of the `GroupController.getGroups` listing. -/
structure GroupListEntry where
  id : String
  name : String
  description : Option String
  isPublic : Bool
  inviteCode : Option String
  expiresAt : Nat
  createdBy : String
  createdAt : Nat
  role : MemberRole
  joinedAt : Nat
deriving DecidableEq, Repr

/-- Insert a membership row into a list sorted by `joinedAt` descending
(the `.sort({joinedAt: -1})` of `getGroups`). -/
def insertJoinedDesc (m : GroupMember) : List GroupMember → List GroupMember
  | [] => [m]
  | a :: l =>
      if a.joinedAt ≤ m.joinedAt then m :: a :: l
      else a :: insertJoinedDesc m l

/-- Sort membership rows by `joinedAt` descending. -/
def sortJoinedDesc (l : List GroupMember) : List GroupMember :=
  l.foldr insertJoinedDesc []

/-- `GroupController.getGroups`: the user's non-banned memberships,
sorted by `joinedAt` descending and paginated (`skip = (page-1)*limit`),
with the group populated under `match: {expiresAt: {$gt: now}}`; rows
whose populated group is null are filtered out, and each surviving row is
mapped to an entry whose invite code is present only when the
membership's role is Owner. -/
def getGroups (now : Nat) (userId : String) (page limit : Nat) (db : DB) :
    List GroupListEntry :=
  let memberships := db.members.filter fun m =>
    decide (m.user = userId ∧ m.role ≠ MemberRole.banned)
  let pageRows := ((sortJoinedDesc memberships).drop ((page - 1) * limit)).take limit
  pageRows.filterMap fun m =>
    match findGroupById db m.group with
    | none => none
    | some group =>
        if group.expiresAt ≤ now then none
        else some
          { id := group.id
            name := group.name
            description := group.description
            isPublic := group.isPublic
            inviteCode :=
              if m.role = MemberRole.owner then some group.inviteCode else none
            expiresAt := group.expiresAt
            createdBy := group.createdBy
            createdAt := group.createdAt
            role := m.role
            joinedAt := m.joinedAt }

/-! ## Message validator and HTTP message controller
(`validators/message.ts`, `controllers/messageController.ts`) -/

/-- True of strings matching `/^[0-9a-fA-F]{24}$/` (Mongo object id). -/
def isObjectIdString (s : String) : Bool :=
  s.length = 24 && s.toList.all fun c =>
    c.isDigit || ('a' ≤ c && c ≤ 'f') || ('A' ≤ c && c ≤ 'F')

/-- Raw body of `POST /messages/:groupId` (`sendMessageSchema`):
optional content, type defaulting to text, optional media, optional
replyTo. -/
structure SendMessageBody where
  content : Option String
  type : Option MessageType
  media : Option MediaData
  replyTo : Option String
deriving DecidableEq, Repr

/-- Parsed output of `sendMessageSchema`. -/
structure SendMessageInput where
  content : Option String
  type : MessageType
  media : Option MediaData
  replyTo : Option String
deriving DecidableEq, Repr

/-- `sendMessageSchema.parse`: content `.max(2000)`, replyTo must look
like an object id, and the schema-level `.refine(data => data.content ||
data.media)` — an absent or empty (falsy) content with no media is
rejected. -/
def parseSendMessage (b : SendMessageBody) : Option SendMessageInput :=
  if (b.content.getD "").length > 2000 then none
  else if !((b.replyTo.map isObjectIdString).getD true) then none
  else if b.content.getD "" = "" ∧ b.media = none then none
  else some
    { content := b.content
      type := b.type.getD MessageType.text
      media := b.media
      replyTo := b.replyTo }

/-- The message document `MessageController.sendMessage` constructs and
saves from a validated body. -/
def mkHttpMessage (now : Nat) (userId groupId msgId : String)
    (input : SendMessageInput) : Message :=
  { id := msgId
    content := input.content
    sender := userId
    group := groupId
    type := input.type
    media := input.media
    replyTo := input.replyTo
    editedAt := none
    deletedAt := none
    createdAt := now }

/-- `MessageController.sendMessage` behind `validateRequest({body:
sendMessageSchema})`: non-banned membership required (404), the group
must exist with `expiresAt > now` (404, "Group not found or has
expired"), an optional replyTo must resolve to a non-deleted message of
the same group (404), then the message document is saved.  `msgId` is
the Mongo-assigned message id. -/
def sendMessage (now : Nat) (userId groupId : String)
    (body : SendMessageBody) (msgId : String) (db : DB) :
    Except HttpError (DB × Message) :=
  match parseSendMessage body with
  | none => Except.error { msg := "Validation failed", status := 400 }
  | some input =>
      match findMembershipNotBanned db userId groupId with
      | none => Except.error { msg := "Group not found or access denied", status := 404 }
      | some _ =>
          match findGroupById db groupId with
          | none => Except.error { msg := "Group not found or has expired", status := 404 }
          | some group =>
              if group.expiresAt ≤ now then
                Except.error { msg := "Group not found or has expired", status := 404 }
              else
                match input.replyTo with
                | some r =>
                    if (db.messages.find? fun m =>
                        decide (m.id = r ∧ m.group = groupId ∧
                          m.deletedAt = none)).isSome then
                      Except.ok
                        ({ db with messages :=
                            db.messages ++ [mkHttpMessage now userId groupId msgId input] },
                          mkHttpMessage now userId groupId msgId input)
                    else
                      Except.error { msg := "Reply message not found", status := 404 }
                | none =>
                    Except.ok
                      ({ db with messages :=
                          db.messages ++ [mkHttpMessage now userId groupId msgId input] },
                        mkHttpMessage now userId groupId msgId input)

/-! ## Socket handlers (`socket/socketHandlers.ts`)

Each connected authenticated socket is a pair of a socket id and a user
id.  `socket.join('group:' + groupId)` adds a `(socketId, groupId)` pair
to the socket.io room map; `io.to('group:' + groupId).emit(...)` delivers
to every socket currently in that room (the sender included when it is in
the room).  The room map lives outside the durable store. -/

/-- The socket.io room map: pairs `(socketId, groupId)` of sockets
currently joined to a group's room. -/
abbrev Rooms := List (String × String)

/-- The sockets `io.to('group:' + g)` reaches: every socket currently in
the room of `g`. -/
def roomSockets (rooms : Rooms) (g : String) : List String :=
  (rooms.filter fun p => decide (p.2 = g)).map Prod.fst

/-- An event emitted by a socket handler: either an `error` event to the
originating socket only, or a broadcast to a recipient list. -/
inductive SocketEvent where
  | errorEvt (socketId : String) (msg : String)
  | newMessage (recipients : List String) (message : Message)
  | reactionAdded (recipients : List String)
      (messageId userId emoji : String)
  | reactionRemoved (recipients : List String)
      (messageId userId emoji : String)
deriving DecidableEq, Repr

/-- Raw payload of the `send-message` socket event.  No schema validation
runs on this path; `type` defaults to text by destructuring default. -/
structure SocketSendData where
  groupId : String
  content : Option String
  type : Option MessageType
  media : Option MediaData
  replyTo : Option String
deriving DecidableEq, Repr

/-- `SocketHandlers.handleSendMessage`: looks up a non-banned membership
of `(userId, data.groupId)` — an absent one yields an `error` event and
nothing else; otherwise the message document is saved as given and a
`new-message` event is emitted to the group's room. -/
def handleSendMessage (now : Nat) (socketId userId : String)
    (data : SocketSendData) (msgId : String) (db : DB) (rooms : Rooms) :
    DB × List SocketEvent :=
  match findMembershipNotBanned db userId data.groupId with
  | none =>
      (db, [SocketEvent.errorEvt socketId "Not authorized to send messages to this group"])
  | some _ =>
      let message : Message :=
        { id := msgId
          content := data.content
          sender := userId
          group := data.groupId
          type := data.type.getD MessageType.text
          media := data.media
          replyTo := data.replyTo
          editedAt := none
          deletedAt := none
          createdAt := now }
      ({ db with messages := db.messages ++ [message] },
        [SocketEvent.newMessage (roomSockets rooms data.groupId) message])

/-- Raw payload of the `add-reaction` socket event. -/
structure SocketReactionData where
  messageId : String
  emoji : String
deriving DecidableEq, Repr

/-- `SocketHandlers.handleAddReaction`: finds the message (error event if
absent), checks a non-banned membership of its group (error event if
absent), and then — per the source, where the reaction persistence logic
is left as a comment — emits `reaction-added` to the room without
writing any `MessageReaction` row. -/
def handleAddReaction (socketId userId : String)
    (data : SocketReactionData) (db : DB)
    (rooms : Rooms) : DB × List SocketEvent :=
  match db.messages.find? fun m => decide (m.id = data.messageId) with
  | none => (db, [SocketEvent.errorEvt socketId "Message not found"])
  | some message =>
      match findMembershipNotBanned db userId message.group with
      | none => (db, [SocketEvent.errorEvt socketId "Not authorized"])
      | some _ =>
          (db, [SocketEvent.reactionAdded (roomSockets rooms message.group)
            data.messageId userId data.emoji])

/-- Raw payload of the `remove-reaction` socket event (it carries a
`groupId` that `handleRemoveReaction` broadcasts to directly). -/
structure SocketRemoveReactionData where
  messageId : String
  emoji : String
  groupId : String
deriving DecidableEq, Repr

/-- `SocketHandlers.handleRemoveReaction`: performs no lookup, no access
check and no persistence — it emits `reaction-removed` to
`data.groupId`'s room unconditionally. -/
def handleRemoveReaction (_socketId userId : String)
    (data : SocketRemoveReactionData) (db : DB) (rooms : Rooms) :
    DB × List SocketEvent :=
  (db, [SocketEvent.reactionRemoved (roomSockets rooms data.groupId)
    data.messageId userId data.emoji])

/-! ## Cleanup sweep (`services/cleanupService.ts`) -/

/-- `CleanupService.cleanupGroup`: the messages of the group carrying a
media descriptor are enumerated, a Cloudinary `destroy` is requested for
each media `publicId` (failures logged, non-fatal), and then one
`Promise.all` issues, concurrently: delete the `MessageReaction` rows
whose message is among those media-carrying messages, delete every
`Message` of the group, delete every `GroupMember` of the group, and
delete the `Group` record.  The result pairs the post-sweep store with
the list of media ids whose deletion was requested. -/
def cleanupGroup (groupId : String) (db : DB) : DB × List String :=
  let messagesWithMedia := db.messages.filter fun m =>
    decide (m.group = groupId) && m.media.isSome
  let mediaIds := messagesWithMedia.filterMap fun m =>
    m.media.map MediaData.publicId
  ({ groups := db.groups.filter fun gr => decide (gr.id ≠ groupId)
     members := db.members.filter fun m => decide (m.group ≠ groupId)
     messages := db.messages.filter fun m => decide (m.group ≠ groupId)
     reactions := db.reactions.filter fun r =>
       !(messagesWithMedia.any fun m => decide (m.id = r.message)) },
    mediaIds)

/-- `CleanupService.cleanupExpiredGroups`: select every group with
`expiresAt ≤ now` and run `cleanupGroup` on each in turn, accumulating
the media-deletion requests. -/
def cleanupExpiredGroups (now : Nat) (db : DB) : DB × List String :=
  let expired := db.groups.filter fun gr => decide (gr.expiresAt ≤ now)
  expired.foldl
    (fun acc gr =>
      let r := cleanupGroup gr.id acc.1
      (r.1, acc.2 ++ r.2))
    (db, [])

/-! ## Concrete states used by counterexamples and witnesses -/

/-- An empty store. -/
def emptyDB : DB := ⟨[], [], [], []⟩

def groupC1 : Group :=
  ⟨"g1", "Test", none, false, 1000, "INVITE0001", "alice", 0⟩

def bobMemberC1 : GroupMember := ⟨"bob", "g1", MemberRole.member, 10, none, none, none⟩

def dbC1 : DB := ⟨[groupC1], [bobMemberC1], [], []⟩

def roomsC1 : Rooms := [("sa", "g1"), ("sb", "g1")]

def dataC1 : SocketSendData := ⟨"g1", some "hi", none, none, none⟩

def groupC2 : Group :=
  ⟨"g2", "Test2", none, false, 100000, "INVITE0002", "alice", 0⟩

def aliceOwnerC2 : GroupMember := ⟨"alice", "g2", MemberRole.owner, 0, none, none, none⟩

def bobMemberC2 : GroupMember := ⟨"bob", "g2", MemberRole.member, 1, none, none, none⟩

def dbC2 : DB := ⟨[groupC2], [aliceOwnerC2, bobMemberC2], [], []⟩

/-- The store after `banMember` marks bob banned in `dbC2`. -/
def dbC2' : DB :=
  ⟨[groupC2],
   [aliceOwnerC2, ⟨"bob", "g2", MemberRole.banned, 1, some 50, some "alice", none⟩],
   [], []⟩

def roomsC2 : Rooms := [("sa", "g2"), ("sb", "g2")]

def groupC3 : Group :=
  ⟨"g3", "Test3", none, false, 10, "INVITE0003", "alice", 0⟩

def aliceOwnerC3 : GroupMember := ⟨"alice", "g3", MemberRole.owner, 0, none, none, none⟩

/-- A text-only message of group g3: no media descriptor. -/
def msgC3 : Message :=
  ⟨"m3", some "hi", "alice", "g3", MessageType.text, none, none, none, none, 1⟩

def reactC3 : MessageReaction := ⟨"m3", "bob", "x"⟩

def dbC3 : DB := ⟨[groupC3], [aliceOwnerC3], [msgC3], [reactC3]⟩

def groupC4 : Group :=
  ⟨"g4", "Test4", none, false, 100000, "INVITE0004", "alice", 0⟩

def aliceOwnerC4 : GroupMember := ⟨"alice", "g4", MemberRole.owner, 0, none, none, none⟩

def dbC4 : DB := ⟨[groupC4], [aliceOwnerC4], [], []⟩

/-- The store after the owner self-demotes in `dbC4`. -/
def dbC4' : DB :=
  ⟨[groupC4], [⟨"alice", "g4", MemberRole.member, 0, none, none, none⟩], [], []⟩

def groupC5 : Group :=
  ⟨"g5", "Test5", none, false, 100000, "INVITE0005", "alice", 0⟩

def aliceOwnerC5 : GroupMember := ⟨"alice", "g5", MemberRole.owner, 0, none, none, none⟩

def bobMemberC5 : GroupMember := ⟨"bob", "g5", MemberRole.member, 1, none, none, none⟩

def msgC5 : Message :=
  ⟨"m5", some "yo", "alice", "g5", MessageType.text, none, none, none, none, 2⟩

def dbC5 : DB := ⟨[groupC5], [aliceOwnerC5, bobMemberC5], [msgC5], []⟩

def roomsC5 : Rooms := [("sa", "g5"), ("sb", "g5")]

def groupC6 : Group :=
  ⟨"g6", "Test6", none, false, 100000, "INVITE0006", "alice", 0⟩

def aliceOwnerC6 : GroupMember := ⟨"alice", "g6", MemberRole.owner, 0, none, none, none⟩

def bannedBobC6 : GroupMember :=
  ⟨"bob", "g6", MemberRole.banned, 1, some 5, some "alice", none⟩

def dbC6 : DB := ⟨[groupC6], [aliceOwnerC6, bannedBobC6], [], []⟩

/-- The store after a moderator re-grants Member to banned bob in `dbC6`. -/
def dbC6' : DB :=
  ⟨[groupC6],
   [aliceOwnerC6, ⟨"bob", "g6", MemberRole.member, 1, some 5, some "alice", none⟩],
   [], []⟩

def groupC7 : Group :=
  ⟨"g7", "Test7", none, false, 100000, "INVITE0007", "alice", 0⟩

def bobMemberC7 : GroupMember := ⟨"bob", "g7", MemberRole.member, 1, none, none, none⟩

def dbC7 : DB := ⟨[groupC7], [bobMemberC7], [], []⟩

/-- A `send-message` socket payload with neither content nor media. -/
def emptyDataC7 : SocketSendData := ⟨"g7", none, none, none, none⟩

/-- The message the socket path persists from `emptyDataC7`. -/
def msgC7 : Message :=
  ⟨"m7", none, "bob", "g7", MessageType.text, none, none, none, none, 100⟩

def bodyC8 : CreateGroupBody := ⟨"Test8", none, none, 3600000⟩

/-- The group `createGroup 0 "alice" bodyC8 "g8" "INVITE0008"` creates. -/
def groupC8 : Group :=
  ⟨"g8", "Test8", none, false, 3600000, "INVITE0008", "alice", 0⟩

def dbC8' : DB :=
  ⟨[groupC8], [⟨"alice", "g8", MemberRole.owner, 0, none, none, none⟩], [], []⟩

def groupC9 : Group :=
  ⟨"g9", "Old name", none, false, 5000, "INVITE0009", "alice", 0⟩

def aliceOwnerC9 : GroupMember := ⟨"alice", "g9", MemberRole.owner, 0, none, none, none⟩

def dbC9 : DB := ⟨[groupC9], [aliceOwnerC9], [], []⟩

/-- An update body that also smuggles `expiresAt`, `inviteCode` and
`createdBy` keys, which `updateGroupSchema` strips. -/
def bodyC9 : UpdateGroupBody :=
  ⟨some "New name", none, some true, some 999999, some "HACKEDCODE", some "mallory"⟩

/-- The group after `updateGroup "alice" "g9" bodyC9` runs on `dbC9`:
name and `isPublic` change, `expiresAt`/`inviteCode`/`createdBy` do not. -/
def groupC9' : Group :=
  ⟨"g9", "New name", none, true, 5000, "INVITE0009", "alice", 0⟩

def dbC9' : DB := ⟨[groupC9'], [aliceOwnerC9], [], []⟩

def groupC10a : Group :=
  ⟨"ga", "Owned", none, false, 100000, "INVITE000A", "alice", 0⟩

def groupC10b : Group :=
  ⟨"gb", "Joined", none, false, 100000, "INVITE000B", "carol", 0⟩

def aliceOwnerC10 : GroupMember := ⟨"alice", "ga", MemberRole.owner, 0, none, none, none⟩

def aliceMemberC10 : GroupMember := ⟨"alice", "gb", MemberRole.member, 3, none, none, none⟩

def dbC10 : DB := ⟨[groupC10a, groupC10b], [aliceOwnerC10, aliceMemberC10], [], []⟩

/-- `getGroup 50 "alice" "ga" dbC10`'s response: alice owns `ga`, so the
invite code is present. -/
def respC10a : GroupDetailResponse :=
  ⟨"ga", "Owned", none, false, some "INVITE000A", 100000, "alice", 0, 1,
   MemberRole.owner, 0⟩

/-- The entry for `ga` in `getGroups 50 "alice" 1 20 dbC10`. -/
def entryC10a : GroupListEntry :=
  ⟨"ga", "Owned", none, false, some "INVITE000A", 100000, "alice", 0,
   MemberRole.owner, 0⟩

/-! ## List bookkeeping lemmas

How a `findOne`-then-`save` update (`updateFirst`) and a
`findByIdAndDelete` (`eraseP`) move row counts and row projections. -/

theorem countP_updateFirst_of_find? {α : Type} (p q : α → Bool) (f : α → α)
    (l : List α) (a : α) (h : l.find? p = some a) :
    (updateFirst p f l).countP q + (if q a then 1 else 0) =
      l.countP q + (if q (f a) then 1 else 0) := by
  induction l with
  | nil => simp [List.find?] at h
  | cons hd tl ih =>
      rw [List.find?_cons] at h
      cases hp : p hd with
      | true =>
          rw [hp] at h
          cases h
          simp [updateFirst, hp, List.countP_cons]
          omega
      | false =>
          rw [hp] at h
          have := ih h
          simp [updateFirst, hp, List.countP_cons]
          omega

theorem countP_eraseP_of_find? {α : Type} (p q : α → Bool)
    (l : List α) (a : α) (h : l.find? p = some a) :
    (l.eraseP p).countP q + (if q a then 1 else 0) = l.countP q := by
  induction l with
  | nil => simp [List.find?] at h
  | cons hd tl ih =>
      rw [List.find?_cons] at h
      cases hp : p hd with
      | true =>
          rw [hp] at h
          cases h
          simp [List.eraseP_cons, hp, List.countP_cons]
      | false =>
          rw [hp] at h
          have := ih h
          simp [List.eraseP_cons, hp, List.countP_cons]
          omega

theorem map_updateFirst {α β : Type} (p : α → Bool) (f : α → α)
    (proj : α → β) (hf : ∀ a, proj (f a) = proj a) (l : List α) :
    (updateFirst p f l).map proj = l.map proj := by
  induction l with
  | nil => rfl
  | cons hd tl ih =>
      by_cases hp : p hd
      · simp [updateFirst, hp, hf]
      · simp [updateFirst, hp, ih]

theorem countP_updateFirst_of_find?_stable {α : Type} (p q : α → Bool)
    (f : α → α) (l : List α) (a : α) (h : l.find? p = some a)
    (hq : q (f a) = q a) :
    (updateFirst p f l).countP q = l.countP q := by
  have := countP_updateFirst_of_find? p q f l a h
  rw [hq] at this
  omega

theorem find?_updateFirst {α : Type} (p : α → Bool) (f : α → α)
    (l : List α) (a : α) (h : l.find? p = some a)
    (hf : p (f a) = true) :
    (updateFirst p f l).find? p = some (f a) := by
  induction l with
  | nil => simp [List.find?] at h
  | cons hd tl ih =>
      rw [List.find?_cons] at h
      cases hp : p hd with
      | true =>
          rw [hp] at h
          cases h
          simp [updateFirst, hp, List.find?_cons, hf]
      | false =>
          rw [hp] at h
          simp [updateFirst, hp, List.find?_cons, ih h]

theorem mem_roomSockets {rooms : Rooms} {s g : String}
    (h : (s, g) ∈ rooms) : s ∈ roomSockets rooms g := by
  unfold roomSockets
  exact List.mem_map.mpr ⟨(s, g), List.mem_filter.mpr ⟨h, by simp⟩, rfl⟩

theorem mem_insertJoinedDesc {x m : GroupMember} {l : List GroupMember}
    (h : x ∈ insertJoinedDesc m l) : x = m ∨ x ∈ l := by
  induction l with
  | nil => simpa [insertJoinedDesc] using h
  | cons hd tl ih =>
      unfold insertJoinedDesc at h
      by_cases hle : hd.joinedAt ≤ m.joinedAt
      · rw [if_pos hle] at h
        simp only [List.mem_cons] at h ⊢
        tauto
      · rw [if_neg hle] at h
        simp only [List.mem_cons] at h ⊢
        rcases h with h1 | h1
        · tauto
        · rcases ih h1 with h2 | h2 <;> tauto

theorem mem_sortJoinedDesc {x : GroupMember} {l : List GroupMember}
    (h : x ∈ sortJoinedDesc l) : x ∈ l := by
  induction l with
  | nil => simp [sortJoinedDesc] at h
  | cons hd tl ih =>
      have h' : x ∈ insertJoinedDesc hd (sortJoinedDesc tl) := h
      rcases mem_insertJoinedDesc h' with h2 | h2
      · simp [h2]
      · exact List.mem_cons_of_mem _ (ih h2)

/-! ## Claim theorems -/

/-- C1: on the real-time path, publishing to a group whose `expiresAt`
has passed does not fail with an expired error — `handleSendMessage`
checks only the membership row, so the message is persisted and
broadcast to the room even though the group is logically expired (here
`expiresAt = 1000 ≤ now = 2000`) and not yet purged. -/
theorem socketSendMessage_persists_to_expired_group :
    groupC1 ∈ dbC1.groups ∧ groupC1.expiresAt ≤ 2000 ∧
    (handleSendMessage 2000 "sb" "bob" dataC1 "m1" dbC1 roomsC1).1.messages =
      [⟨"m1", some "hi", "bob", "g1", MessageType.text, none, none, none, none, 2000⟩] ∧
    (handleSendMessage 2000 "sb" "bob" dataC1 "m1" dbC1 roomsC1).2 =
      [SocketEvent.newMessage ["sa", "sb"]
        ⟨"m1", some "hi", "bob", "g1", MessageType.text, none, none, none, none, 2000⟩] :=
  ⟨by decide, by decide, rfl, rfl⟩

/-- C5: `handleAddReaction` emits a `reaction-added` broadcast to the
room while leaving the durable store — in particular the
`MessageReaction` collection — completely unchanged: a reaction delta is
broadcast with no corresponding persisted reaction. -/
theorem handleAddReaction_broadcasts_without_persisting :
    (handleAddReaction "sb" "bob" ⟨"m5", "x"⟩ dbC5 roomsC5).1 = dbC5 ∧
    dbC5.reactions = [] ∧
    (handleAddReaction "sb" "bob" ⟨"m5", "x"⟩ dbC5 roomsC5).2 =
      [SocketEvent.reactionAdded ["sa", "sb"] "m5" "bob" "x"] :=
  ⟨rfl, rfl, rfl⟩

/-- C2 counterexample: after `banMember` marks bob banned, bob's socket
`"sb"` is still in the room of g2, and the very next broadcast to that
room (alice's `send-message`) is delivered to the recipient list
`["sa", "sb"]`, which contains the banned user's pre-existing
subscription — no eviction happens between the ban and the broadcast. -/
theorem ban_leaves_existing_subscription_receiving :
    banMember 50 "alice" "bob" "g2" none dbC2 = Except.ok dbC2' ∧
    (findMembership dbC2' "bob" "g2").map GroupMember.role =
      some MemberRole.banned ∧
    ("sb", "g2") ∈ roomsC2 ∧
    (handleSendMessage 60 "sa" "alice" ⟨"g2", some "hello", none, none, none⟩
        "m2" dbC2' roomsC2).2 =
      [SocketEvent.newMessage ["sa", "sb"]
        ⟨"m2", some "hello", "alice", "g2", MessageType.text, none, none, none, none, 60⟩] ∧
    "sb" ∈ ["sa", "sb"] :=
  ⟨rfl, rfl, by decide, rfl, by decide⟩

/-- C3 counterexample: `cleanupGroup` deletes reactions only for the
group's messages that carry media.  In a group with a text-only message
`m3` and a reaction on it, the purge completes with the reaction row
still present — referencing a message row that was just deleted. -/
theorem cleanupGroup_leaves_reaction_on_textonly_message :
    msgC3 ∈ dbC3.messages ∧ msgC3.group = "g3" ∧ reactC3.message = msgC3.id ∧
    (cleanupGroup "g3" dbC3).1.reactions = [reactC3] ∧
    (cleanupGroup "g3" dbC3).1.messages = [] :=
  ⟨by decide, rfl, rfl, rfl, rfl⟩

/-- C4 counterexample: `updateMemberRole` lets the Owner modify the
Owner row (the guard only blocks non-Owner actors), so the Owner can
demote themself to Member: the group is left with zero Owner rows,
violating the exactly-one-Owner invariant. -/
theorem owner_self_demotion_breaks_owner_invariant :
    ownerCount dbC4 "g4" = 1 ∧
    updateMemberRole "alice" "alice" "g4" UpdateRoleValue.member dbC4 =
      Except.ok dbC4' ∧
    ownerCount dbC4' "g4" = 0 :=
  ⟨rfl, rfl, rfl⟩

/-- C6 counterexample: a Banned membership is not terminal —
`updateMemberRole` only guards Owner-role targets, so a moderator can
set a banned member's role back to Member, restoring access. -/
theorem updateMemberRole_unbans_banned_member :
    (findMembership dbC6 "bob" "g6").map GroupMember.role =
      some MemberRole.banned ∧
    updateMemberRole "alice" "bob" "g6" UpdateRoleValue.member dbC6 =
      Except.ok dbC6' ∧
    (findMembership dbC6' "bob" "g6").map GroupMember.role =
      some MemberRole.member :=
  ⟨rfl, rfl, rfl⟩

/-- C7 counterexample: the real-time send path performs no content/media
validation, so a `send-message` event carrying neither content nor media
persists a message with `content = none` and `media = none`. -/
theorem socket_persists_message_without_content_or_media :
    (handleSendMessage 100 "sb" "bob" emptyDataC7 "m7" dbC7 []).1.messages =
      [msgC7] ∧
    msgC7.content = none ∧ msgC7.media = none :=
  ⟨rfl, rfl, rfl⟩

/-- C8: `createGroup` succeeds only when `expiryDuration` lies between
3,600,000 ms and 2,592,000,000 ms inclusive, and on success the group's
`expiresAt` equals the creation-time clock value plus `expiryDuration`
(computed once, at creation); conversely, with valid name and
description, any duration inside the bounds is accepted. -/
theorem createGroup_expiry_bounds_and_expiresAt
    (now : Nat) (userId : String) (b : CreateGroupBody)
    (newId code : String) (db : DB) :
    (∀ db' gr, createGroup now userId b newId code db = Except.ok (db', gr) →
      minExpiryMs ≤ b.expiryDuration ∧ b.expiryDuration ≤ maxExpiryMs ∧
      (gr.expiresAt : Int) = (now : Int) + b.expiryDuration ∧
      gr.createdAt = now) ∧
    (1 ≤ b.name.length → b.name.length ≤ 100 →
      (b.description.getD "").length ≤ 500 →
      minExpiryMs ≤ b.expiryDuration → b.expiryDuration ≤ maxExpiryMs →
      ∃ db' gr, createGroup now userId b newId code db = Except.ok (db', gr)) := by
  constructor
  · intro db' gr h
    unfold createGroup at h
    cases hp : parseCreateGroup b with
    | none => rw [hp] at h; exact absurd h (by simp)
    | some input =>
        rw [hp] at h
        simp only [Except.ok.injEq, Prod.mk.injEq] at h
        obtain ⟨-, hgr⟩ := h
        unfold parseCreateGroup at hp
        split at hp
        · exact absurd hp (by simp)
        split at hp
        · exact absurd hp (by simp)
        split at hp
        · exact absurd hp (by simp)
        split at hp
        · exact absurd hp (by simp)
        split at hp
        · exact absurd hp (by simp)
        rename_i hmin hmax
        simp only [Option.some.injEq] at hp
        have hdur : input.expiryDuration = b.expiryDuration := by
          rw [← hp]
        have hmin' : minExpiryMs ≤ b.expiryDuration := by omega
        have hmax' : b.expiryDuration ≤ maxExpiryMs := by omega
        refine ⟨hmin', hmax', ?_, ?_⟩
        · rw [← hgr]
          show ((now + input.expiryDuration.toNat : Nat) : Int) =
            (now : Int) + b.expiryDuration
          rw [hdur]
          have hnn : (0 : Int) ≤ b.expiryDuration := by
            have : (0 : Int) < minExpiryMs := by decide
            omega
          push_cast
          rw [Int.toNat_of_nonneg hnn]
        · rw [← hgr]
  · intro hn1 hn2 hd hmin hmax
    unfold createGroup parseCreateGroup
    rw [if_neg (by omega), if_neg (by omega), if_neg (by omega),
      if_neg (by omega), if_neg (by omega)]
    exact ⟨_, _, rfl⟩

/-- C8 witness: creating a group with the minimum 1-hour duration at
clock 0 succeeds and yields `expiresAt = 3600000`. -/
theorem createGroup_expiry_bounds_and_expiresAt_witness :
    (minExpiryMs ≤ bodyC8.expiryDuration ∧
      bodyC8.expiryDuration ≤ maxExpiryMs ∧
      (groupC8.expiresAt : Int) = (0 : Int) + bodyC8.expiryDuration ∧
      groupC8.createdAt = 0) ∧
    (∃ db' gr,
      createGroup 0 "alice" bodyC8 "g8" "INVITE0008" emptyDB =
        Except.ok (db', gr)) :=
  ⟨(createGroup_expiry_bounds_and_expiresAt 0 "alice" bodyC8 "g8"
      "INVITE0008" emptyDB).1 dbC8' groupC8 rfl,
   (createGroup_expiry_bounds_and_expiresAt 0 "alice" bodyC8 "g8"
      "INVITE0008" emptyDB).2 (by decide) (by decide) (by decide)
      (by decide) (by decide)⟩

/-- C9: a successful `updateGroup` changes at most `name`, `description`
and `isPublic` of the targeted group row: every group row keeps its id,
`expiresAt`, `inviteCode` and `createdBy`, and the other collections are
untouched — whatever extra keys (`expiresAt`, `inviteCode`, `createdBy`)
the raw body carries, `updateGroupSchema` strips them. -/
theorem updateGroup_frame (actorId groupId : String) (b : UpdateGroupBody)
    (db db' : DB) (resp : Group)
    (h : updateGroup actorId groupId b db = Except.ok (db', resp)) :
    db'.groups.map (fun gr => (gr.id, gr.expiresAt, gr.inviteCode, gr.createdBy)) =
      db.groups.map (fun gr => (gr.id, gr.expiresAt, gr.inviteCode, gr.createdBy)) ∧
    db'.members = db.members ∧ db'.messages = db.messages ∧
    db'.reactions = db.reactions := by
  unfold updateGroup at h
  cases hp : parseUpdateGroup b with
  | none => rw [hp] at h; exact absurd h (by simp)
  | some updates =>
      rw [hp] at h
      cases hm : findModeratorMembership db actorId groupId with
      | none => rw [hm] at h; exact absurd h (by simp)
      | some am =>
          rw [hm] at h
          cases hg : findGroupById db groupId with
          | none => rw [hg] at h; exact absurd h (by simp)
          | some old =>
              rw [hg] at h
              simp only [Except.ok.injEq, Prod.mk.injEq] at h
              obtain ⟨hdb, -⟩ := h
              subst hdb
              refine ⟨?_, rfl, rfl, rfl⟩
              refine map_updateFirst _ _ _ ?_ _
              intro a
              rfl

/-- C9 witness: the concrete update (with smuggled `expiresAt`,
`inviteCode`, `createdBy` keys in the body) leaves those fields of the
stored group unchanged. -/
theorem updateGroup_frame_witness :
    dbC9'.groups.map (fun gr => (gr.id, gr.expiresAt, gr.inviteCode, gr.createdBy)) =
      dbC9.groups.map (fun gr => (gr.id, gr.expiresAt, gr.inviteCode, gr.createdBy)) ∧
    dbC9'.members = dbC9.members ∧ dbC9'.messages = dbC9.messages ∧
    dbC9'.reactions = dbC9.reactions :=
  updateGroup_frame "alice" "g9" bodyC9 dbC9 dbC9' groupC9' rfl

/-- C10: in `getGroup` and `getGroups` responses, the `inviteCode` key is
present exactly when the requesting user's membership role in that group
is Owner; Admin and Member callers get no invite code. -/
theorem inviteCode_present_iff_owner (now : Nat) (userId groupId : String)
    (page limit : Nat) (db : DB) :
    (∀ resp, getGroup now userId groupId db = Except.ok resp →
      ∃ m, findMembershipNotBanned db userId groupId = some m ∧
        resp.userRole = m.role ∧
        (resp.inviteCode.isSome ↔ m.role = MemberRole.owner)) ∧
    (∀ e, e ∈ getGroups now userId page limit db →
      ∃ m, m ∈ db.members ∧ m.user = userId ∧ m.group = e.id ∧
        e.role = m.role ∧
        (e.inviteCode.isSome ↔ m.role = MemberRole.owner)) := by
  constructor
  · intro resp h
    unfold getGroup at h
    split at h
    · exact absurd h (by simp)
    · rename_i m hm
      split at h
      · exact absurd h (by simp)
      · rename_i group hg
        split at h
        · exact absurd h (by simp)
        · simp only [Except.ok.injEq] at h
          subst h
          refine ⟨m, hm, rfl, ?_⟩
          by_cases hrole : m.role = MemberRole.owner
          · simp [hrole]
          · simp [hrole]
  · intro e he
    simp only [getGroups] at he
    obtain ⟨m, hmem, hf⟩ := List.mem_filterMap.mp he
    have hmem2 : m ∈ sortJoinedDesc (db.members.filter fun m =>
        decide (m.user = userId ∧ m.role ≠ MemberRole.banned)) :=
      List.mem_of_mem_drop (List.mem_of_mem_take hmem)
    obtain ⟨hm_db, hpred⟩ := List.mem_filter.mp (mem_sortJoinedDesc hmem2)
    have hpred' := of_decide_eq_true hpred
    split at hf
    · exact absurd hf (by simp)
    · rename_i group hg
      split at hf
      · exact absurd hf (by simp)
      · simp only [Option.some.injEq] at hf
        subst hf
        have hg' : db.groups.find? (fun gr => decide (gr.id = m.group)) =
            some group := hg
        have hpa := List.find?_some hg'
        have hid : group.id = m.group := of_decide_eq_true hpa
        refine ⟨m, hm_db, hpred'.1, hid.symm, rfl, ?_⟩
        by_cases hrole : m.role = MemberRole.owner
        · simp [hrole]
        · simp [hrole]

/-- C10 witness: on a concrete store where alice owns `ga` and is a plain
member of `gb`, the `getGroup` response for `ga` and the `getGroups`
entry for `ga` carry the invite code exactly because the role is Owner. -/
theorem inviteCode_present_iff_owner_witness :
    (∃ m, findMembershipNotBanned dbC10 "alice" "ga" = some m ∧
      respC10a.userRole = m.role ∧
      (respC10a.inviteCode.isSome ↔ m.role = MemberRole.owner)) ∧
    (∃ m, m ∈ dbC10.members ∧ m.user = "alice" ∧ m.group = entryC10a.id ∧
      entryC10a.role = m.role ∧
      (entryC10a.inviteCode.isSome ↔ m.role = MemberRole.owner)) :=
  ⟨(inviteCode_present_iff_owner 50 "alice" "ga" 1 20 dbC10).1 respC10a rfl,
   (inviteCode_present_iff_owner 50 "alice" "ga" 1 20 dbC10).2 entryC10a
     (by decide)⟩

/-- C7 (amended): every message persisted by the request/response
sendMessage route has nonempty text content or a media descriptor — the
schema-level refine rejects a body whose content is absent or empty when
no media is attached; the real-time send path performs no such
validation and can persist a message with neither content nor media. -/
theorem http_send_requires_content_or_media :
    (∀ (now : Nat) (userId groupId : String) (body : SendMessageBody)
      (msgId : String) (db db' : DB) (msg : Message),
      sendMessage now userId groupId body msgId db = Except.ok (db', msg) →
      (∃ c, msg.content = some c ∧ c ≠ "") ∨ msg.media.isSome) ∧
    (∃ (db : DB) (rooms : Rooms) (now : Nat) (sid uid mid : String)
      (data : SocketSendData),
      (findMembershipNotBanned db uid data.groupId).isSome ∧
      ((handleSendMessage now sid uid data mid db rooms).1.messages.any
        fun m => decide (m.content = none ∧ m.media = none))) := by
  constructor
  · intro now userId groupId body msgId db db' msg h
    unfold sendMessage at h
    split at h
    · exact absurd h (by simp)
    · rename_i input hp
      split at h
      · exact absurd h (by simp)
      · split at h
        · exact absurd h (by simp)
        · split at h
          · exact absurd h (by simp)
          · have hmsg : msg = mkHttpMessage now userId groupId msgId input := by
              split at h
              · split at h
                · simp only [Except.ok.injEq, Prod.mk.injEq] at h
                  exact h.2.symm
                · exact absurd h (by simp)
              · simp only [Except.ok.injEq, Prod.mk.injEq] at h
                exact h.2.symm
            unfold parseSendMessage at hp
            split at hp
            · exact absurd hp (by simp)
            · split at hp
              · exact absurd hp (by simp)
              · split at hp
                · exact absurd hp (by simp)
                · rename_i hrefine
                  simp only [Option.some.injEq] at hp
                  subst hp
                  subst hmsg
                  by_cases hmedia : body.media = none
                  · left
                    have hcontent : ¬ body.content.getD "" = "" := by
                      intro hc
                      exact hrefine ⟨hc, hmedia⟩
                    cases hc : body.content with
                    | none => rw [hc] at hcontent; simp at hcontent
                    | some c =>
                        refine ⟨c, rfl, ?_⟩
                        intro hce
                        rw [hc, hce] at hcontent
                        simp at hcontent
                  · right
                    show body.media.isSome
                    cases hm : body.media with
                    | none => exact absurd hm hmedia
                    | some md => simp
  · refine ⟨dbC7, [], 100, "sb", "bob", "m7", emptyDataC7, by decide, by decide⟩

/-- C7 witness: a valid text message sent through the request/response
route yields a persisted message whose content is nonempty. -/
theorem http_send_requires_content_or_media_witness :
    (∃ c, (⟨"m8", some "hello", "bob", "g7", MessageType.text, none, none,
        none, none, 50⟩ : Message).content = some c ∧ c ≠ "") ∨
    (⟨"m8", some "hello", "bob", "g7", MessageType.text, none, none, none,
        none, 50⟩ : Message).media.isSome :=
  http_send_requires_content_or_media.1 50 "bob" "g7"
    ⟨some "hello", none, none, none⟩ "m8" dbC7
    ⟨[groupC7], [bobMemberC7],
      [⟨"m8", some "hello", "bob", "g7", MessageType.text, none, none, none,
        none, 50⟩], []⟩
    ⟨"m8", some "hello", "bob", "g7", MessageType.text, none, none, none,
      none, 50⟩ rfl

/-- The validated role strings denote Admin or Member, never Owner or
Banned. -/
theorem UpdateRoleValue.toRole_not_owner_or_banned (r : UpdateRoleValue) :
    r.toRole ≠ MemberRole.owner ∧ r.toRole ≠ MemberRole.banned := by
  cases r <;> exact ⟨by simp [UpdateRoleValue.toRole], by simp [UpdateRoleValue.toRole]⟩

/-- C6 (amended): a banned user cannot re-enter through `joinGroup` —
the join by invite code fails with the 403 banned error — but Banned is
not terminal: `updateMemberRole` by an Owner/Admin on a banned
(non-Owner) membership succeeds and sets the row to the requested
Admin/Member role. -/
theorem banned_terminal_except_role_update :
    (∀ (now : Nat) (userId code : String) (db : DB) (g : Group)
      (mem : GroupMember),
      findGroupByInviteCode db code = some g → now < g.expiresAt →
      findMembership db userId g.id = some mem →
      mem.role = MemberRole.banned →
      joinGroup now userId code db =
        Except.error ⟨"You are banned from this group", 403⟩) ∧
    (∀ (actorId targetId gid : String) (role : UpdateRoleValue) (db : DB)
      (am tm : GroupMember),
      findModeratorMembership db actorId gid = some am →
      findMembership db targetId gid = some tm →
      tm.role = MemberRole.banned →
      ∃ db', updateMemberRole actorId targetId gid role db = Except.ok db' ∧
        (findMembership db' targetId gid).map GroupMember.role =
          some role.toRole ∧
        role.toRole ≠ MemberRole.banned) := by
  constructor
  · intro now userId code db g mem hg hlive hmem hban
    unfold joinGroup
    simp only [hg]
    rw [if_neg (by omega)]
    simp only [hmem]
    rw [if_pos hban]
  · intro actorId targetId gid role db am tm hmod hmem hban
    unfold updateMemberRole
    simp only [hmod, hmem]
    rw [if_neg (by rw [hban]; simp)]
    refine ⟨_, rfl, ?_, (UpdateRoleValue.toRole_not_owner_or_banned role).2⟩
    show (List.find? _ (updateFirst _ _ db.members)).map GroupMember.role =
      some role.toRole
    have hp : (fun m : GroupMember =>
        decide (m.user = targetId ∧ m.group = gid))
        ({ tm with role := role.toRole }) = true := by
      have := List.find?_some (show db.members.find? (fun m =>
        decide (m.user = targetId ∧ m.group = gid)) = some tm from hmem)
      have h2 := of_decide_eq_true this
      exact decide_eq_true (by exact ⟨h2.1, h2.2⟩)
    rw [find?_updateFirst _ _ _ _ hmem hp]
    rfl

/-- C6 witness: on the concrete store `dbC6` (alice owns g6, bob is
banned there), bob's join attempt with the invite code fails with 403,
while alice's role update on bob succeeds and makes him a Member. -/
theorem banned_terminal_except_role_update_witness :
    joinGroup 50 "bob" "INVITE0006" dbC6 =
      Except.error ⟨"You are banned from this group", 403⟩ ∧
    ∃ db', updateMemberRole "alice" "bob" "g6" UpdateRoleValue.member dbC6 =
        Except.ok db' ∧
      (findMembership db' "bob" "g6").map GroupMember.role =
        some UpdateRoleValue.member.toRole ∧
      UpdateRoleValue.member.toRole ≠ MemberRole.banned :=
  ⟨banned_terminal_except_role_update.1 50 "bob" "INVITE0006" dbC6 groupC6
      bannedBobC6 rfl (by decide) rfl rfl,
   banned_terminal_except_role_update.2 "alice" "bob" "g6"
      UpdateRoleValue.member dbC6 aliceOwnerC6 bannedBobC6 rfl rfl rfl⟩

/-- When the sender holds a non-banned membership, the socket send path
broadcasts the saved message to exactly the sockets currently in the
group's room. -/
theorem handleSendMessage_events_of_member
    (now : Nat) (sid uid : String) (data : SocketSendData) (mid : String)
    (db : DB) (rooms : Rooms) (m : GroupMember)
    (h : findMembershipNotBanned db uid data.groupId = some m) :
    (handleSendMessage now sid uid data mid db rooms).2 =
      [SocketEvent.newMessage (roomSockets rooms data.groupId)
        ⟨mid, data.content, uid, data.groupId, data.type.getD MessageType.text,
          data.media, data.replyTo, none, none, now⟩] := by
  unfold handleSendMessage
  simp only [h]

/-- C2 (amended): a successful `banMember` marks the target's membership
row Banned in the durable store, but performs no eviction from the
socket room map — so for any room state, a subsequent successful
broadcast to the group's room is delivered to every socket currently in
that room, the banned user's pre-existing subscription included. -/
theorem banMember_records_ban_but_never_evicts
    (now : Nat) (actorId targetId groupId : String) (reason : Option String)
    (db db' : DB)
    (h : banMember now actorId targetId groupId reason db = Except.ok db') :
    (findMembership db' targetId groupId).map GroupMember.role =
      some MemberRole.banned ∧
    ∀ (rooms : Rooms) (now2 : Nat) (sid senderId msgId : String)
      (data : SocketSendData) (m : GroupMember), data.groupId = groupId →
      findMembershipNotBanned db' senderId groupId = some m →
      (∃ msg, (handleSendMessage now2 sid senderId data msgId db' rooms).2 =
        [SocketEvent.newMessage (roomSockets rooms groupId) msg]) ∧
      ∀ s, (s, groupId) ∈ rooms → s ∈ roomSockets rooms groupId := by
  unfold banMember at h
  split at h
  · exact absurd h (by simp)
  · split at h
    · exact absurd h (by simp)
    · rename_i tm hmem
      split at h
      · exact absurd h (by simp)
      · simp only [Except.ok.injEq] at h
        subst h
        constructor
        · show (List.find? _ (updateFirst _ _ db.members)).map
            GroupMember.role = _
          have h1 : db.members.find? (fun m =>
              decide (m.user = targetId ∧ m.group = groupId)) = some tm := hmem
          have h2 := List.find?_some h1
          have hptm := of_decide_eq_true h2
          have hp : (fun m : GroupMember =>
              decide (m.user = targetId ∧ m.group = groupId))
              ({ tm with
                  role := MemberRole.banned
                  bannedAt := some now
                  bannedBy := some actorId
                  banReason := reason }) = true :=
            decide_eq_true ⟨hptm.1, hptm.2⟩
          rw [find?_updateFirst _ _ _ _ hmem hp]
          rfl
        · intro rooms now2 sid senderId msgId data m hgid hsend
          rw [← hgid] at hsend
          refine ⟨?_, fun s hs => mem_roomSockets hs⟩
          rw [← hgid]
          exact ⟨_, handleSendMessage_events_of_member now2 sid senderId
            data msgId _ rooms m hsend⟩

/-- C2 witness: applying the no-eviction theorem to the concrete ban of
bob in `dbC2` — bob is recorded banned, and alice's follow-up broadcast
is delivered to all of `roomsC2`, including bob's socket `"sb"`. -/
theorem banMember_records_ban_but_never_evicts_witness :
    (findMembership dbC2' "bob" "g2").map GroupMember.role =
      some MemberRole.banned ∧
    ((∃ msg, (handleSendMessage 60 "sa" "alice"
        ⟨"g2", some "hello", none, none, none⟩ "m2" dbC2' roomsC2).2 =
      [SocketEvent.newMessage (roomSockets roomsC2 "g2") msg]) ∧
      ∀ s, (s, "g2") ∈ roomsC2 → s ∈ roomSockets roomsC2 "g2") :=
  ⟨(banMember_records_ban_but_never_evicts 50 "alice" "bob" "g2" none dbC2
      dbC2' rfl).1,
   (banMember_records_ban_but_never_evicts 50 "alice" "bob" "g2" none dbC2
      dbC2' rfl).2 roomsC2 60 "sa" "alice" "m2"
      ⟨"g2", some "hello", none, none, none⟩ aliceOwnerC2 rfl rfl⟩

/-- C3 (amended): once `cleanupGroup` completes for a group, the Group
record, every Message row of the group and every Membership row of the
group are gone; but only those Reaction rows are deleted that reference
a media-carrying message of the group — reactions on the group's
media-less messages survive — and the four deletions are issued by one
concurrent `Promise.all`, not sequenced in dependency order.  The media
deletions requested are exactly the public ids of the group's
media-carrying messages. -/
theorem cleanupGroup_cascade_effect (groupId : String) (db : DB) :
    findGroupById (cleanupGroup groupId db).1 groupId = none ∧
    (∀ m, m ∈ (cleanupGroup groupId db).1.messages ↔
      m ∈ db.messages ∧ m.group ≠ groupId) ∧
    (∀ mem, mem ∈ (cleanupGroup groupId db).1.members ↔
      mem ∈ db.members ∧ mem.group ≠ groupId) ∧
    (∀ r, r ∈ (cleanupGroup groupId db).1.reactions ↔
      r ∈ db.reactions ∧
      ¬ ∃ m, m ∈ db.messages ∧ m.group = groupId ∧ m.media.isSome ∧
        m.id = r.message) ∧
    (∀ pid, pid ∈ (cleanupGroup groupId db).2 ↔
      ∃ m, m ∈ db.messages ∧ m.group = groupId ∧
        ∃ md, m.media = some md ∧ md.publicId = pid) := by
  refine ⟨?_, ?_, ?_, ?_, ?_⟩
  · apply List.find?_eq_none.mpr
    intro gr hgr
    have h2 := (List.mem_filter.mp hgr).2
    simp only [decide_eq_true_eq] at h2 ⊢
    simp [h2]
  · intro m
    simp [cleanupGroup, List.mem_filter]
  · intro mem
    simp [cleanupGroup, List.mem_filter]
  · intro r
    simp only [cleanupGroup, List.mem_filter, Bool.not_eq_true']
    constructor
    · rintro ⟨hr, hany⟩
      refine ⟨hr, ?_⟩
      rintro ⟨m, hm, hgrp, hmedia, hid⟩
      have htrue : (db.messages.filter fun m =>
          decide (m.group = groupId) && m.media.isSome).any
          (fun m => decide (m.id = r.message)) = true := by
        apply List.any_eq_true.mpr
        exact ⟨m, List.mem_filter.mpr ⟨hm, by simp [hgrp, hmedia]⟩,
          by simp [hid]⟩
      rw [htrue] at hany
      simp at hany
    · rintro ⟨hr, hnone⟩
      refine ⟨hr, ?_⟩
      rcases Bool.eq_false_or_eq_true ((db.messages.filter fun m =>
          decide (m.group = groupId) && m.media.isSome).any
          (fun m => decide (m.id = r.message))) with hb | hb
      · exfalso
        obtain ⟨m, hm, hid⟩ := List.any_eq_true.mp hb
        obtain ⟨hm2, hpred⟩ := List.mem_filter.mp hm
        simp only [Bool.and_eq_true, decide_eq_true_eq] at hpred hid
        exact hnone ⟨m, hm2, hpred.1, hpred.2, hid⟩
      · exact hb
  · intro pid
    simp only [cleanupGroup]
    constructor
    · intro h
      obtain ⟨m, hm, hmap⟩ := List.mem_filterMap.mp h
      obtain ⟨hm2, hpred⟩ := List.mem_filter.mp hm
      simp only [Bool.and_eq_true, decide_eq_true_eq] at hpred
      obtain ⟨md, hmd, hpid⟩ := Option.map_eq_some'.mp hmap
      exact ⟨m, hm2, hpred.1, md, hmd, hpid⟩
    · rintro ⟨m, hm, hgrp, md, hmd, hpid⟩
      apply List.mem_filterMap.mpr
      refine ⟨m, List.mem_filter.mpr ⟨hm, ?_⟩, ?_⟩
      · simp [hgrp, hmd]
      · rw [hmd]
        simp [hpid]

/-- C3 witness: on the concrete store `dbC3`, purging g3 removes the
group record while the reaction on the text-only message survives. -/
theorem cleanupGroup_cascade_effect_witness :
    findGroupById (cleanupGroup "g3" dbC3).1 "g3" = none ∧
    reactC3 ∈ (cleanupGroup "g3" dbC3).1.reactions :=
  ⟨(cleanupGroup_cascade_effect "g3" dbC3).1,
   ((cleanupGroup_cascade_effect "g3" dbC3).2.2.2.1 reactC3).mpr
     ⟨by decide, by
       rintro ⟨m, hm, hgrp, hmedia, hid⟩
       simp only [dbC3, List.mem_singleton] at hm
       subst hm
       simp [msgC3] at hmedia⟩⟩

/-- C4 (amended): the operations of the spec never create a second
Owner: `createGroup` establishes exactly one Owner row for the fresh
group and changes no other group's count, `joinGroup`, `leaveGroup` and
`banMember` preserve every group's Owner count, and `updateMemberRole`
preserves it whenever the target row is not the Owner row — but when the
Owner is the target (which the code permits only for an Owner actor,
i.e. self-demotion), the Owner count drops by one, to zero. -/
theorem ownerCount_invariant_outside_owner_demotion :
    (∀ (now : Nat) (userId : String) (b : CreateGroupBody)
      (newId code : String) (db db' : DB) (gr : Group),
      (∀ m, m ∈ db.members → m.group ≠ newId) →
      createGroup now userId b newId code db = Except.ok (db', gr) →
      ownerCount db' newId = 1 ∧
      ∀ gid, gid ≠ newId → ownerCount db' gid = ownerCount db gid) ∧
    (∀ (now : Nat) (userId icode : String) (db db' : DB) (mem : GroupMember)
      (gid : String),
      joinGroup now userId icode db = Except.ok (db', mem) →
      ownerCount db' gid = ownerCount db gid) ∧
    (∀ (userId groupId : String) (db db' : DB) (gid : String),
      leaveGroup userId groupId db = Except.ok db' →
      ownerCount db' gid = ownerCount db gid) ∧
    (∀ (now : Nat) (actorId targetId groupId : String)
      (reason : Option String) (db db' : DB) (gid : String),
      banMember now actorId targetId groupId reason db = Except.ok db' →
      ownerCount db' gid = ownerCount db gid) ∧
    (∀ (actorId targetId groupId : String) (role : UpdateRoleValue)
      (db db' : DB) (gid : String),
      updateMemberRole actorId targetId groupId role db = Except.ok db' →
      (findMembership db targetId groupId).map GroupMember.role ≠
        some MemberRole.owner →
      ownerCount db' gid = ownerCount db gid) ∧
    (∀ (actorId targetId groupId : String) (role : UpdateRoleValue)
      (db db' : DB),
      updateMemberRole actorId targetId groupId role db = Except.ok db' →
      (findMembership db targetId groupId).map GroupMember.role =
        some MemberRole.owner →
      ownerCount db' groupId + 1 = ownerCount db groupId) := by
  refine ⟨?_, ?_, ?_, ?_, ?_, ?_⟩
  · intro now userId b newId code db db' gr hfresh h
    unfold createGroup at h
    split at h
    · exact absurd h (by simp)
    · simp only [Except.ok.injEq, Prod.mk.injEq] at h
      obtain ⟨hdb, -⟩ := h
      subst hdb
      constructor
      · show ((db.members ++ [_]).countP _) = 1
        rw [List.countP_append]
        have hzero : db.members.countP (fun m =>
            decide (m.group = newId ∧ m.role = MemberRole.owner)) = 0 := by
          apply List.countP_eq_zero.mpr
          intro m hm
          simp only [decide_eq_true_eq, not_and]
          intro hg
          exact absurd hg (hfresh m hm)
        rw [hzero, List.countP_singleton]
        simp
      · intro gid hgid
        show ((db.members ++ [_]).countP _) = _
        rw [List.countP_append, List.countP_singleton]
        have hne : ¬(newId = gid) := fun he => hgid he.symm
        rw [if_neg (by simp [hne])]
        simp [ownerCount]
  · intro now userId icode db db' mem gid h
    unfold joinGroup at h
    split at h
    · exact absurd h (by simp)
    · split at h
      · exact absurd h (by simp)
      · split at h
        · split at h
          · exact absurd h (by simp)
          · exact absurd h (by simp)
        · simp only [Except.ok.injEq, Prod.mk.injEq] at h
          obtain ⟨hdb, -⟩ := h
          subst hdb
          show ((db.members ++ [_]).countP _) = _
          rw [List.countP_append, List.countP_singleton]
          rw [if_neg (by simp)]
          simp [ownerCount]
  · intro userId groupId db db' gid h
    unfold leaveGroup at h
    split at h
    · exact absurd h (by simp)
    · rename_i mem hmem
      split at h
      · exact absurd h (by simp)
      · rename_i hnotban
        split at h
        · exact absurd h (by simp)
        · rename_i hnotowner
          simp only [Except.ok.injEq] at h
          subst h
          have h1 : db.members.find? (fun m =>
              decide (m.user = userId ∧ m.group = groupId)) = some mem :=
            hmem
          show ((db.members.eraseP _).countP _) = _
          have h2 := countP_eraseP_of_find? (fun m =>
              decide (m.user = userId ∧ m.group = groupId))
            (fun m => decide (m.group = gid ∧ m.role = MemberRole.owner))
            db.members mem h1
          rw [if_neg (by simp [hnotowner])] at h2
          unfold ownerCount
          omega
  · intro now actorId targetId groupId reason db db' gid h
    unfold banMember at h
    split at h
    · exact absurd h (by simp)
    · split at h
      · exact absurd h (by simp)
      · rename_i tm hmem
        split at h
        · exact absurd h (by simp)
        · rename_i hnotowner
          simp only [Except.ok.injEq] at h
          subst h
          have h1 : db.members.find? (fun m =>
              decide (m.user = targetId ∧ m.group = groupId)) = some tm :=
            hmem
          show ((updateFirst _ _ db.members).countP _) = _
          apply countP_updateFirst_of_find?_stable _ _ _ _ tm h1
          simp [hnotowner]
  · intro actorId targetId groupId role db db' gid h hrole
    unfold updateMemberRole at h
    split at h
    · exact absurd h (by simp)
    · split at h
      · exact absurd h (by simp)
      · rename_i tm hmem
        split at h
        · exact absurd h (by simp)
        · simp only [Except.ok.injEq] at h
          subst h
          rw [hmem] at hrole
          simp only [Option.map_some', ne_eq, Option.some.injEq] at hrole
          have h1 : db.members.find? (fun m =>
              decide (m.user = targetId ∧ m.group = groupId)) = some tm :=
            hmem
          show ((updateFirst _ _ db.members).countP _) = _
          apply countP_updateFirst_of_find?_stable _ _ _ _ tm h1
          simp only [decide_eq_decide]
          constructor
          · rintro ⟨hg, hro⟩
            exact absurd hro (UpdateRoleValue.toRole_not_owner_or_banned
              role).1
          · rintro ⟨hg, hro⟩
            exact absurd hro hrole
  · intro actorId targetId groupId role db db' h hrole
    unfold updateMemberRole at h
    split at h
    · exact absurd h (by simp)
    · split at h
      · exact absurd h (by simp)
      · rename_i tm hmem
        split at h
        · exact absurd h (by simp)
        · simp only [Except.ok.injEq] at h
          subst h
          rw [hmem] at hrole
          simp only [Option.map_some', Option.some.injEq] at hrole
          have h1 : db.members.find? (fun m =>
              decide (m.user = targetId ∧ m.group = groupId)) = some tm :=
            hmem
          have hfound := List.find?_some h1
          have hgrp : tm.group = groupId := (of_decide_eq_true hfound).2
          have h2 := countP_updateFirst_of_find? (fun m =>
              decide (m.user = targetId ∧ m.group = groupId))
            (fun m => decide (m.group = groupId ∧ m.role = MemberRole.owner))
            (fun m => { m with role := role.toRole }) db.members tm h1
          rw [if_pos (by simp [hgrp, hrole]),
            if_neg (by simp [(UpdateRoleValue.toRole_not_owner_or_banned
              role).1])] at h2
          show ((updateFirst _ _ db.members).countP _) + 1 = _
          unfold ownerCount
          omega

/-- C4 witness: the six conjuncts applied at concrete stores — group
creation yields one Owner, join/leave/ban and a non-Owner role change
preserve the count, and the Owner's self-demotion in `dbC4` drops it
from one to zero. -/
theorem ownerCount_invariant_outside_owner_demotion_witness :
    ownerCount dbC8' "g8" = 1 ∧
    ownerCount ⟨[groupC7], [bobMemberC7,
      ⟨"carol", "g7", MemberRole.member, 50, none, none, none⟩], [], []⟩
      "g7" = ownerCount dbC7 "g7" ∧
    ownerCount ⟨[groupC7], [], [], []⟩ "g7" = ownerCount dbC7 "g7" ∧
    ownerCount dbC2' "g2" = ownerCount dbC2 "g2" ∧
    ownerCount ⟨[groupC2], [aliceOwnerC2,
      ⟨"bob", "g2", MemberRole.admin, 1, none, none, none⟩], [], []⟩
      "g2" = ownerCount dbC2 "g2" ∧
    ownerCount dbC4' "g4" + 1 = ownerCount dbC4 "g4" :=
  ⟨(ownerCount_invariant_outside_owner_demotion.1 0 "alice" bodyC8 "g8"
      "INVITE0008" emptyDB dbC8' groupC8 (by intro m hm; simp [emptyDB] at hm)
      rfl).1,
   ownerCount_invariant_outside_owner_demotion.2.1 50 "carol" "INVITE0007"
      dbC7 _ _ "g7" rfl,
   ownerCount_invariant_outside_owner_demotion.2.2.1 "bob" "g7" dbC7 _
      "g7" rfl,
   ownerCount_invariant_outside_owner_demotion.2.2.2.1 50 "alice" "bob"
      "g2" none dbC2 dbC2' "g2" rfl,
   ownerCount_invariant_outside_owner_demotion.2.2.2.2.1 "alice" "bob"
      "g2" UpdateRoleValue.admin dbC2 _ "g2" rfl (by decide),
   ownerCount_invariant_outside_owner_demotion.2.2.2.2.2 "alice" "alice"
      "g4" UpdateRoleValue.member dbC4 dbC4' rfl (by decide)⟩

end PulseTick
